import Mathlib

/-!
Shallow embedding of `src/fetch_iced_docs.py` (the `dictate` repository).

The script is a single-file documentation pipeline:
`main` runs `clone_iced_book`, then `build_cargo_docs` (and, on its success,
`convert_cargo_docs` for each requested crate followed by removal of the
`cargo-temp` scratch directory), then optionally `fetch_examples`, then
`create_index`, and finally exits `0` iff `success_count == total_tasks`
where only the book stage, the build stage and the optional examples stage
are counted.

External effects (subprocess results, filesystem existence, per-file
conversion results, fault injection points for Python exceptions) are
modelled by an oracle record `World`.  A Python function that may let an
exception escape is modelled with `Option` (`none` = an uncaught exception
propagates to the caller); a function that catches every exception is
modelled as a total function.
-/

namespace IcedDocs

/-- Oracle for every external effect the script performs.  Each field is the
outcome of one concrete operation in `src/fetch_iced_docs.py`:

* `bookCloneOk`      — the `git clone` of the book repo exits 0 (line 50).
* `bookSrcExists`    — `book-src/src` exists after the clone (line 65).
* `bookCopyFault`    — `shutil.copytree`/`rmtree` for the book raises
                       (caught by `except Exception`, line 79).
* `buildFault`       — writing `Cargo.toml`/`lib.rs` or spawning cargo
                       raises (caught by `except Exception`, line 143).
* `cargoDocOk`       — `cargo doc` exits 0 (line 129).
* `docDirBuilt`      — `target/doc` exists after cargo doc (line 134).
* `docDirExists c`   — `target/doc/<c>` exists (line 154).
* `convFault c`      — the conversion loop for crate `c` raises
                       (caught by `except Exception`, line 191).
* `convResults c`    — the per-file results yielded by `convert_directory`
                       for crate `c` (`true` = converted, `false` = the
                       yielded result is an `Exception`, lines 165-177).
* `primaryTagOk`     — the sparse clone with `--branch=<tag>` exits 0
                       (line 224).
* `fallbackOk`       — the fallback clone without a branch exits 0
                       (line 228, `check=True`).
* `sparseOk`         — `git sparse-checkout set examples` exits 0
                       (line 242, `check=True`).
* `examplesExist`    — `<repo>/examples` exists (line 250).
* `examplesCopyFault`— `shutil.copytree`/`rmtree` in `fetch_examples`
                       raises; only `CalledProcessError` is caught there,
                       so this fault propagates (lines 251-255).
* `indexWriteFault`  — `README.md` `write_text` raises; `create_index`
                       has no handler, so this fault propagates (line 322).
* `outputMkdirFault` — `output_dir.mkdir(parents=True, exist_ok=True)` at
                       the top of `main` raises; unguarded, so this fault
                       propagates before any stage runs (line 372).
* `tempMkdirFault`   — `temp_dir.mkdir(parents=True, exist_ok=True)` at
                       line 89 raises; it sits BEFORE the `try` block of
                       `build_cargo_docs`, so this fault propagates out of
                       the build stage through `main`.
* `tempRmtreeFault`  — the `shutil.rmtree(temp_dir)` cleanup in `main`
                       after a successful build raises; unguarded, so this
                       fault propagates (line 400).
-/
structure World where
  bookCloneOk : Bool
  bookSrcExists : Bool
  bookCopyFault : Bool
  buildFault : Bool
  cargoDocOk : Bool
  docDirBuilt : Bool
  docDirExists : String → Bool
  convFault : String → Bool
  convResults : String → List Bool
  primaryTagOk : Bool
  fallbackOk : Bool
  sparseOk : Bool
  examplesExist : Bool
  examplesCopyFault : Bool
  indexWriteFault : Bool
  outputMkdirFault : Bool
  tempMkdirFault : Bool
  tempRmtreeFault : Bool

/-- The spec's `StageOutcome` tag (spec §3); reasons label the code path
that produced a `False` return in the script. -/
inductive Outcome
  | Completed
  | Failed (reason : String)
  | Skipped (reason : String)
deriving DecidableEq, Repr

/-- Names of the stages the script actually runs.  There is one build stage
for all crates and one conversion call per crate; the script has no
per-crate retrieval operation. -/
inductive StageName
  | book
  | cargoBuild
  | convert (crate : String)
  | examples
  | index
deriving DecidableEq, Repr

/-- `clone_iced_book` (lines 41-81): clone exits nonzero → caught
`CalledProcessError` → `False`; `src` missing → `False`; a fault during
copy/cleanup → caught `Exception` → `False`; otherwise `True`. -/
def clone_iced_book (w : World) : Bool :=
  if !w.bookCloneOk then false
  else if !w.bookSrcExists then false
  else if w.bookCopyFault then false
  else true

/-- Whether the `book-src` scratch directory is still present after
`clone_iced_book` returns: the clone created it, and `shutil.rmtree`
(line 70) runs only on the path where `src` exists and the copy succeeded. -/
def bookScratchLeft (w : World) : Bool :=
  w.bookCloneOk && (!w.bookSrcExists || w.bookCopyFault)

/-- `build_cargo_docs` (lines 84-145) after its unguarded
`temp_dir.mkdir` (line 89) succeeded: faults inside the `try` are caught →
`False`; `cargo doc` nonzero → `False`; `target/doc` missing → `False`;
otherwise `True`.  A `tempMkdirFault` is NOT caught here — the mkdir runs
before the `try`, so that fault propagates and is modelled at the call
site in `main`.  The function itself never removes `cargo-temp`. -/
def build_cargo_docs (w : World) : Bool :=
  if w.buildFault then false
  else if !w.cargoDocOk then false
  else if !w.docDirBuilt then false
  else true

/-- The loop body of `convert_cargo_docs` (lines 171-177): an `Exception`
result increments `error_count`, anything else `success_count`. -/
def convCountsStep (acc : Nat × Nat) (r : Bool) : Nat × Nat :=
  if r then (acc.1 + 1, acc.2) else (acc.1, acc.2 + 1)

/-- Final `(success_count, error_count)` after the conversion loop of
`convert_cargo_docs` runs over every yielded result (lines 161-177). -/
def convCounts (results : List Bool) : Nat × Nat :=
  results.foldl convCountsStep (0, 0)

/-- Whether `convert_cargo_docs` reaches the `convert_directory` call for
crate `c`: it does iff `target/doc/<c>` exists (lines 154-156 return
before the `try` block otherwise). -/
def conv_attempted (w : World) (c : String) : Bool :=
  w.docDirExists c

/-- `convert_cargo_docs` (lines 148-193) as a tagged outcome; the reasons
label the script's three `return False` paths (missing doc directory,
caught exception, zero successful conversions). -/
def convert_cargo_docs (w : World) (c : String) : Outcome :=
  if !w.docDirExists c then Outcome.Failed "no-docs-found"
  else if w.convFault c then Outcome.Failed "exception"
  else if (convCounts (w.convResults c)).1 = 0 then Outcome.Failed "all-units-failed"
  else Outcome.Completed

/-- One `git clone` attempt inside `fetch_examples`. -/
inductive CloneAttempt
  | primary
  | fallback
deriving DecidableEq, Repr

/-- `fetch_examples` after a clone succeeded (lines 242-260):
`sparse-checkout` failing raises a caught `CalledProcessError` → `False`;
no `examples` directory → `False`; `shutil.copytree`/`rmtree` raising is
NOT caught (only `CalledProcessError` is) → propagates (`none`);
otherwise `True`. -/
def fetch_after_clone (w : World) : Option Bool :=
  if !w.sparseOk then some false
  else if w.examplesExist then
    if w.examplesCopyFault then none else some true
  else some false

/-- `fetch_examples` (lines 196-266) together with its trace of clone
attempts: the `--branch=<tag>` clone always runs; on a nonzero exit the
fallback clone (no branch, `check=True`) runs exactly once; a fallback
failure raises a `CalledProcessError`, which is caught → `False`. -/
def fetch_examples_run (w : World) : List CloneAttempt × Option Bool :=
  if w.primaryTagOk then ([CloneAttempt.primary], fetch_after_clone w)
  else if w.fallbackOk then
    ([CloneAttempt.primary, CloneAttempt.fallback], fetch_after_clone w)
  else ([CloneAttempt.primary, CloneAttempt.fallback], some false)

/-- The result of `fetch_examples` (`none` = uncaught exception). -/
def fetch_examples (w : World) : Option Bool :=
  (fetch_examples_run w).2

/-- The sequence of `git clone` attempts `fetch_examples` issues. -/
def fetch_attempts (w : World) : List CloneAttempt :=
  (fetch_examples_run w).1

/-- One section of the README the script writes (lines 271-320): the fixed
header, one API line per crate, the examples section present iff the
`has_examples` argument is true, and the fixed tail. -/
inductive IndexSection
  | header
  | apiEntry (crate : String)
  | examplesSection
  | footer
deriving DecidableEq, Repr

/-- `create_index` (lines 269-323): the content of `README.md` as the
sequence of sections the script concatenates. -/
def create_index (crates : List String) (has_examples : Bool) : List IndexSection :=
  [IndexSection.header]
    ++ crates.map IndexSection.apiEntry
    ++ (if has_examples then [IndexSection.examplesSection] else [])
    ++ [IndexSection.footer]

/-- A boolean stage result as a tagged outcome. -/
def boolOutcome (b : Bool) (reason : String) : Outcome :=
  if b then Outcome.Completed else Outcome.Failed reason

/-- The per-crate conversion events `main` produces: one call to
`convert_cargo_docs` per crate, in order, and only when `build_cargo_docs`
returned `True` (lines 387-394); nothing per crate otherwise. -/
def convEvents (crates : List String) (w : World) : List (StageName × Outcome) :=
  if build_cargo_docs w then
    crates.map (fun c => (StageName.convert c, convert_cargo_docs w c))
  else []

/-- `success_count` at the end of `main` (lines 377-404): the book stage,
the build stage and (when enabled) the examples stage each add one;
per-crate conversion results are not counted. -/
def successCount (include_examples : Bool) (w : World) (exOk : Bool) : Nat :=
  (if clone_iced_book w then 1 else 0) + (if build_cargo_docs w then 1 else 0)
    + (if include_examples && exOk then 1 else 0)

/-- `total_tasks` (lines 378-380). -/
def totalTasks (include_examples : Bool) : Nat :=
  2 + (if include_examples then 1 else 0)

/-- The ordered report of stage outcomes observable from one run of `main`:
book, build, the per-crate conversions (when the build succeeded), the
examples stage (when enabled), and last the index write. -/
def runEvents (include_examples : Bool) (crates : List String) (w : World)
    (exOk : Bool) : List (StageName × Outcome) :=
  [(StageName.book, boolOutcome (clone_iced_book w) "book-failed"),
   (StageName.cargoBuild, boolOutcome (build_cargo_docs w) "build-failed")]
    ++ convEvents crates w
    ++ (if include_examples then
          [(StageName.examples, boolOutcome exOk "examples-failed")]
        else [])
    ++ [(StageName.index, Outcome.Completed)]

/-- The scratch directories still under the output root when `main`
finishes normally: `book-src` when `clone_iced_book` left it behind, and
`cargo-temp` unless the build succeeded — `main` removes `cargo-temp` only
inside the `if build_cargo_docs(...)` branch (lines 396-400).  On every
path on which `fetch_examples` returns, it has removed `iced-repo-temp`. -/
def runLeftovers (w : World) : List String :=
  (if bookScratchLeft w then ["book-src"] else [])
    ++ (if build_cargo_docs w then [] else ["cargo-temp"])

/-- Everything observable from one completed run of `main`. -/
structure RunResult where
  exitCode : Nat
  events : List (StageName × Outcome)
  index : List IndexSection
  leftovers : List String
deriving DecidableEq, Repr

/-- `main` (lines 326-430): runs the stages in order and exits `0` iff
`success_count == total_tasks`; `none` models an exception escaping `main`.
The unguarded operations that can raise, in program order: the initial
`output_dir.mkdir` (line 372); `temp_dir.mkdir` at the start of
`build_cargo_docs` (line 89, before its `try`); the
`shutil.rmtree(temp_dir)` cleanup, which runs only inside the
build-success branch (line 400); the copy/cleanup step of `fetch_examples`
when the stage is enabled (only `CalledProcessError` is caught there); and
the `README.md` write in `create_index` (line 322). -/
def main (include_examples : Bool) (crates : List String) (w : World) :
    Option RunResult :=
  if w.outputMkdirFault then none
  else if w.tempMkdirFault then none
  else if build_cargo_docs w && w.tempRmtreeFault then none
  else (if include_examples then fetch_examples w else some false).bind fun exOk =>
    if w.indexWriteFault then none
    else
      some { exitCode :=
               if successCount include_examples w exOk = totalTasks include_examples
               then 0 else 1
             events := runEvents include_examples crates w exOk
             index := create_index crates include_examples
             leftovers := runLeftovers w }

/-- Destructuring the report-producing tail of `main` (after the three
unguarded-fault checks that precede it). -/
theorem main_some_elim_aux {include_examples : Bool} {crates : List String} {w : World}
    {r : RunResult}
    (h : ((if include_examples then fetch_examples w else some false).bind fun exOk =>
        if w.indexWriteFault then none
        else
          some { exitCode :=
                   if successCount include_examples w exOk = totalTasks include_examples
                   then 0 else 1
                 events := runEvents include_examples crates w exOk
                 index := create_index crates include_examples
                 leftovers := runLeftovers w }) = some r) :
    ∃ exOk, (if include_examples then fetch_examples w else some false) = some exOk ∧
      w.indexWriteFault = false ∧
      r = { exitCode :=
              if successCount include_examples w exOk = totalTasks include_examples
              then 0 else 1
            events := runEvents include_examples crates w exOk
            index := create_index crates include_examples
            leftovers := runLeftovers w } := by
  rw [Option.bind_eq_some] at h
  obtain ⟨exOk, hfe, hr⟩ := h
  cases hidx : w.indexWriteFault
  · rw [hidx] at hr
    simp only [Bool.false_eq_true, if_false, Option.some.injEq] at hr
    exact ⟨exOk, hfe, rfl, hr.symm⟩
  · rw [hidx] at hr
    simp at hr

/-- Destructuring a completed run of `main` into its pieces. -/
theorem main_some_elim {include_examples : Bool} {crates : List String} {w : World}
    {r : RunResult} (h : main include_examples crates w = some r) :
    ∃ exOk, (if include_examples then fetch_examples w else some false) = some exOk ∧
      w.indexWriteFault = false ∧
      r = { exitCode :=
              if successCount include_examples w exOk = totalTasks include_examples
              then 0 else 1
            events := runEvents include_examples crates w exOk
            index := create_index crates include_examples
            leftovers := runLeftovers w } := by
  unfold main at h
  split at h
  · exact absurd h (by simp)
  · split at h
    · exact absurd h (by simp)
    · split at h
      · exact absurd h (by simp)
      · exact main_some_elim_aux h

/-- A world in which every external operation succeeds. -/
def allOkWorld : World :=
  { bookCloneOk := true
    bookSrcExists := true
    bookCopyFault := false
    buildFault := false
    cargoDocOk := true
    docDirBuilt := true
    docDirExists := fun _ => true
    convFault := fun _ => false
    convResults := fun _ => [true, true]
    primaryTagOk := true
    fallbackOk := true
    sparseOk := true
    examplesExist := true
    examplesCopyFault := false
    indexWriteFault := false
    outputMkdirFault := false
    tempMkdirFault := false
    tempRmtreeFault := false }

/-- The run `main true ["iced"] allOkWorld` produces. -/
def allOkRun : RunResult :=
  { exitCode := 0
    events := [(StageName.book, Outcome.Completed),
               (StageName.cargoBuild, Outcome.Completed),
               (StageName.convert "iced", Outcome.Completed),
               (StageName.examples, Outcome.Completed),
               (StageName.index, Outcome.Completed)]
    index := [IndexSection.header, IndexSection.apiEntry "iced",
              IndexSection.examplesSection, IndexSection.footer]
    leftovers := [] }

theorem main_allOk : main true ["iced"] allOkWorld = some allOkRun := by
  decide

/-- The `[dependencies]` entries of the `Cargo.toml` that `build_cargo_docs`
writes (lines 99-113): always `iced = "<version>"`, plus
`iced_layershell = "<layershell_version>"` exactly when `"iced_layershell"`
is among the requested crates. -/
def cargo_deps (crates : List String) (version layershell_version : String) :
    List (String × String) :=
  [("iced", version)] ++
    (if crates.contains "iced_layershell" then
      [("iced_layershell", layershell_version)]
    else [])

theorem convCounts_spec (results : List Bool) :
    convCounts results = (results.countP (fun r => r), results.countP (fun r => !r)) := by
  have key : ∀ (l : List Bool) (s e : Nat),
      l.foldl convCountsStep (s, e) =
        (s + l.countP (fun r => r), e + l.countP (fun r => !r)) := by
    intro l
    induction l with
    | nil => intro s e; simp
    | cons a l ih =>
      intro s e
      cases a <;> simp [convCountsStep, ih, List.countP_cons, Prod.ext_iff] <;> omega
  simpa using key results 0 0

/-- C5: the conversion loop of `convert_cargo_docs` classifies every yielded
result exactly once — a failed item does not stop the loop — and the final
success and error counts sum to the number of yielded items. -/
theorem C5_every_item_classified (results : List Bool) :
    (convCounts results).1 + (convCounts results).2 = results.length ∧
    (convCounts results).1 = results.countP (fun r => r) ∧
    (convCounts results).2 = results.countP (fun r => !r) := by
  rw [convCounts_spec]
  refine ⟨?_, rfl, rfl⟩
  induction results with
  | nil => simp
  | cons a l ih => cases a <;> simp [List.countP_cons] <;> omega

/-- C4: when the conversion loop for crate `c` runs over a non-empty result
sequence without an internal fault, the aggregate outcome of
`convert_cargo_docs` is `Completed` iff at least one item succeeded, and is
`Failed "all-units-failed"` exactly when the success count is zero. -/
theorem C4_conversion_tolerance (w : World) (c : String)
    (hdoc : w.docDirExists c = true) (hfault : w.convFault c = false)
    (_hne : w.convResults c ≠ []) :
    (convert_cargo_docs w c = Outcome.Completed ↔
      1 ≤ (convCounts (w.convResults c)).1) ∧
    (convert_cargo_docs w c = Outcome.Failed "all-units-failed" ↔
      (convCounts (w.convResults c)).1 = 0) := by
  unfold convert_cargo_docs
  rw [hdoc, hfault]
  by_cases hz : (convCounts (w.convResults c)).1 = 0 <;>
    simp [hz, Nat.one_le_iff_ne_zero]

/-- A world whose conversion stream has one success and one failure. -/
def convWorld : World :=
  { allOkWorld with convResults := fun _ => [true, false] }

theorem C4_witness :
    (convert_cargo_docs convWorld "iced" = Outcome.Completed ↔
      1 ≤ (convCounts (convWorld.convResults "iced")).1) ∧
    (convert_cargo_docs convWorld "iced" = Outcome.Failed "all-units-failed" ↔
      (convCounts (convWorld.convResults "iced")).1 = 0) :=
  C4_conversion_tolerance convWorld "iced" rfl rfl (by decide)

/-- C6: when the primary version tag does not exist at the remote,
`fetch_examples` issues exactly one additional clone attempt against the
fallback reference and never a third, whatever the fallback's own result. -/
theorem C6_fallback_once (w : World) (h : w.primaryTagOk = false) :
    fetch_attempts w = [CloneAttempt.primary, CloneAttempt.fallback] ∧
    (fetch_attempts w).count CloneAttempt.fallback = 1 := by
  unfold fetch_attempts fetch_examples_run
  rw [h]
  cases hf : w.fallbackOk <;> simp

/-- A world whose primary tag clone and fallback clone both fail. -/
def noTagWorld : World :=
  { allOkWorld with primaryTagOk := false, fallbackOk := false }

theorem C6_witness :
    fetch_attempts noTagWorld = [CloneAttempt.primary, CloneAttempt.fallback] ∧
    (fetch_attempts noTagWorld).count CloneAttempt.fallback = 1 :=
  C6_fallback_once noTagWorld rfl

/-- C10: the generated manifest declares `iced` at the target version
exactly once, declares `iced_layershell` at the auxiliary version iff it is
among the requested crates, and declares no other name. -/
theorem C10_manifest_deps (crates : List String) (version layershell_version : String) :
    ("iced", version) ∈ cargo_deps crates version layershell_version ∧
    (cargo_deps crates version layershell_version).countP
      (fun d => d.1 == "iced") = 1 ∧
    ((("iced_layershell", layershell_version) ∈
        cargo_deps crates version layershell_version) ↔ "iced_layershell" ∈ crates) ∧
    (∀ n v, (n, v) ∈ cargo_deps crates version layershell_version →
      n = "iced" ∨ n = "iced_layershell") := by
  have hmem : crates.contains "iced_layershell" = true ↔ "iced_layershell" ∈ crates := by
    simp [List.contains, List.elem_iff]
  by_cases hc : "iced_layershell" ∈ crates
  · rw [cargo_deps, if_pos (hmem.mpr hc)]
    refine ⟨by simp, by simp [List.countP_cons], by simp [hc], ?_⟩
    intro n v hv
    simp only [List.mem_append, List.mem_singleton, Prod.mk.injEq] at hv
    rcases hv with ⟨h1, _⟩ | ⟨h1, _⟩
    · exact Or.inl h1
    · exact Or.inr h1
  · rw [cargo_deps, if_neg (fun hcc => hc (hmem.mp hcc))]
    refine ⟨by simp, by simp [List.countP_cons], ?_, ?_⟩
    · simp only [List.append_nil, List.mem_singleton, Prod.mk.injEq]
      constructor
      · intro ⟨h1, _⟩
        exact absurd h1 (by decide)
      · intro hmem2
        exact absurd hmem2 hc
    · intro n v hv
      simp only [List.append_nil, List.mem_singleton, Prod.mk.injEq] at hv
      exact Or.inl hv.1

theorem countP_convert_eq_count (crates : List String) (u : String) :
    crates.countP (fun c => StageName.convert c == StageName.convert u) =
      crates.count u := by
  induction crates with
  | nil => simp
  | cons a l ih =>
    simp only [List.countP_cons, List.count_cons, ih]
    by_cases hau : a = u
    · subst hau; simp
    · simp [hau]

theorem countP_convert_comp (crates : List String) (w : World) (u : String) :
    crates.countP ((fun (e : StageName × Outcome) => e.1 == StageName.convert u) ∘
      fun c => (StageName.convert c, convert_cargo_docs w c)) = crates.count u := by
  have hfn : ((fun (e : StageName × Outcome) => e.1 == StageName.convert u) ∘
      fun c => (StageName.convert c, convert_cargo_docs w c)) =
      fun c => StageName.convert c == StageName.convert u := rfl
  rw [hfn, countP_convert_eq_count]

/-- Any conversion event in the report carries the outcome
`convert_cargo_docs` computed for that crate. -/
theorem convert_event_eq {include_examples : Bool} {crates : List String} {w : World}
    {exOk : Bool} {c : String} {o : Outcome}
    (h : (StageName.convert c, o) ∈ runEvents include_examples crates w exOk) :
    o = convert_cargo_docs w c := by
  unfold runEvents convEvents at h
  cases hbuild : build_cargo_docs w <;> cases include_examples <;>
    simp [hbuild, boolOutcome] at h <;>
    obtain ⟨c', -, rfl, rfl⟩ := h <;> rfl

/-- C1 (amended): the exit code is `0` iff the book stage, the docs-build
stage and (when enabled) the examples stage all completed; the per-crate
conversion outcomes do not enter `success_count` and cannot affect the
exit code. -/
theorem C1_exit_code (include_examples : Bool) (crates : List String) (w : World)
    (r : RunResult) (h : main include_examples crates w = some r) :
    r.exitCode = 0 ↔
      (clone_iced_book w = true ∧ build_cargo_docs w = true ∧
        (include_examples = true → fetch_examples w = some true)) := by
  obtain ⟨exOk, hfe, -, hr⟩ := main_some_elim h
  subst hr
  cases include_examples
  · simp only [Bool.false_eq_true, if_false] at hfe
    obtain rfl : exOk = false := by
      injection hfe with h2
      exact h2.symm
    unfold successCount totalTasks
    cases hbook : clone_iced_book w <;> cases hbuild : build_cargo_docs w <;>
      simp [hbook, hbuild]
  · simp only [if_true] at hfe
    unfold successCount totalTasks
    cases hbook : clone_iced_book w <;> cases hbuild : build_cargo_docs w <;>
      cases exOk <;> simp [hfe, hbook, hbuild]

theorem C1_witness :
    allOkRun.exitCode = 0 ↔
      (clone_iced_book allOkWorld = true ∧ build_cargo_docs allOkWorld = true ∧
        (true = true → fetch_examples allOkWorld = some true)) :=
  C1_exit_code true ["iced"] allOkWorld allOkRun (by decide)

/-- A world in which everything succeeds except that no per-crate doc
directory exists, so every per-crate conversion fails. -/
def noDocsWorld : World :=
  { allOkWorld with docDirExists := fun _ => false }

/-- The run `main false ["iced"] noDocsWorld` produces. -/
def noDocsRun : RunResult :=
  { exitCode := 0
    events := [(StageName.book, Outcome.Completed),
               (StageName.cargoBuild, Outcome.Completed),
               (StageName.convert "iced", Outcome.Failed "no-docs-found"),
               (StageName.index, Outcome.Completed)]
    index := [IndexSection.header, IndexSection.apiEntry "iced", IndexSection.footer]
    leftovers := [] }

/-- C1 (counterexample): a run in which the conversion of requested unit
`"iced"` failed yet the process exit code is `0`, refuting the claim that
any enabled stage failing forces exit code `1`. -/
theorem C1_counterexample :
    ∃ r, main false ["iced"] noDocsWorld = some r ∧
      (StageName.convert "iced", Outcome.Failed "no-docs-found") ∈ r.events ∧
      r.exitCode = 0 :=
  ⟨noDocsRun, by decide, by decide, rfl⟩

/-- C2 (amended): the report contains exactly one docs-build (retrieval)
outcome in total — not one per unit — and, when the build succeeded, one
conversion outcome per occurrence of each unit in the requested list (so
exactly one per distinct unit), and none at all when the build failed. -/
theorem C2_report_shape (include_examples : Bool) (crates : List String) (w : World)
    (r : RunResult) (h : main include_examples crates w = some r) (u : String) :
    r.events.countP (fun e => e.1 == StageName.convert u) =
      (if build_cargo_docs w then crates.count u else 0) ∧
    r.events.countP (fun e => e.1 == StageName.cargoBuild) = 1 := by
  obtain ⟨exOk, -, -, hr⟩ := main_some_elim h
  subst hr
  unfold runEvents convEvents
  cases hbuild : build_cargo_docs w <;> cases include_examples <;>
    simp [hbuild, List.countP_append, List.countP_cons, countP_convert_comp]

theorem C2_witness :
    allOkRun.events.countP (fun e => e.1 == StageName.convert "iced") =
      (if build_cargo_docs allOkWorld then (["iced"] : List String).count "iced" else 0) ∧
    allOkRun.events.countP (fun e => e.1 == StageName.cargoBuild) = 1 :=
  C2_report_shape true ["iced"] allOkWorld allOkRun (by decide) "iced"

/-- A world in which `cargo doc` exits nonzero, failing the build stage. -/
def buildFailWorld : World :=
  { allOkWorld with cargoDocOk := false }

/-- The run `main false ["iced"] buildFailWorld` produces. -/
def buildFailRun : RunResult :=
  { exitCode := 1
    events := [(StageName.book, Outcome.Completed),
               (StageName.cargoBuild, Outcome.Failed "build-failed"),
               (StageName.index, Outcome.Completed)]
    index := [IndexSection.header, IndexSection.apiEntry "iced", IndexSection.footer]
    leftovers := ["cargo-temp"] }

/-- C2 (counterexample): with requested unit set `{"iced"}` and a failed
build, the report contains zero conversion outcomes for `"iced"`, not
exactly one. -/
theorem C2_counterexample :
    ∃ r, main false ["iced"] buildFailWorld = some r ∧
      r.events.countP (fun e => e.1 == StageName.convert "iced") = 0 :=
  ⟨buildFailRun, by decide, by decide⟩

/-- C3 (amended): when unit `c`'s doc directory is absent (its retrieval
failed), the conversion operation is never attempted for `c` and its
recorded outcome is `Failed "no-docs-found"` — in particular never
`Completed` and never `Skipped "retrieval-failed"`. -/
theorem C3_no_docs (include_examples : Bool) (crates : List String) (w : World)
    (r : RunResult) (c : String) (h : main include_examples crates w = some r)
    (hdoc : w.docDirExists c = false) :
    conv_attempted w c = false ∧
    convert_cargo_docs w c = Outcome.Failed "no-docs-found" ∧
    (∀ o, (StageName.convert c, o) ∈ r.events → o = Outcome.Failed "no-docs-found") ∧
    (StageName.convert c, Outcome.Completed) ∉ r.events ∧
    (StageName.convert c, Outcome.Skipped "retrieval-failed") ∉ r.events := by
  obtain ⟨exOk, -, -, hr⟩ := main_some_elim h
  subst hr
  have hconv : convert_cargo_docs w c = Outcome.Failed "no-docs-found" := by
    unfold convert_cargo_docs
    rw [hdoc]
    simp
  have hall : ∀ o, (StageName.convert c, o) ∈
      runEvents include_examples crates w exOk → o = Outcome.Failed "no-docs-found" := by
    intro o ho
    rw [convert_event_eq ho, hconv]
  refine ⟨by unfold conv_attempted; rw [hdoc], hconv, hall, ?_, ?_⟩
  · intro hmem
    exact absurd (hall _ hmem) (by decide)
  · intro hmem
    exact absurd (hall _ hmem) (by decide)

theorem C3_witness :
    conv_attempted noDocsWorld "iced" = false ∧
    convert_cargo_docs noDocsWorld "iced" = Outcome.Failed "no-docs-found" ∧
    (∀ o, (StageName.convert "iced", o) ∈ noDocsRun.events →
      o = Outcome.Failed "no-docs-found") ∧
    (StageName.convert "iced", Outcome.Completed) ∉ noDocsRun.events ∧
    (StageName.convert "iced", Outcome.Skipped "retrieval-failed") ∉ noDocsRun.events :=
  C3_no_docs false ["iced"] noDocsWorld noDocsRun "iced" (by decide) rfl

/-- C3 (counterexample): a run in which the retrieval of `"iced"`'s docs
failed and the conversion outcome recorded for it is
`Failed "no-docs-found"`, not `Skipped "retrieval-failed"`. -/
theorem C3_counterexample :
    ∃ r, main false ["iced"] noDocsWorld = some r ∧
      (StageName.convert "iced", Outcome.Failed "no-docs-found") ∈ r.events ∧
      (StageName.convert "iced", Outcome.Skipped "retrieval-failed") ∉ r.events :=
  ⟨noDocsRun, by decide, by decide, by decide⟩

/-- C7 (amended): after a completed run, `cargo-temp` remains exactly when
the build stage failed (`main` removes it only on the build-success
branch), `book-src` remains exactly when `clone_iced_book` left it behind
(clone succeeded but the source dir was missing or the copy faulted), and
the examples repo directory never remains after a completed run. -/
theorem C7_scratch (include_examples : Bool) (crates : List String) (w : World)
    (r : RunResult) (h : main include_examples crates w = some r) :
    (("cargo-temp" ∈ r.leftovers) ↔ build_cargo_docs w = false) ∧
    (("book-src" ∈ r.leftovers) ↔ bookScratchLeft w = true) ∧
    "iced-repo-temp" ∉ r.leftovers := by
  obtain ⟨exOk, -, -, hr⟩ := main_some_elim h
  subst hr
  unfold runLeftovers
  cases hbook : bookScratchLeft w <;> cases hbuild : build_cargo_docs w <;>
    simp [hbook, hbuild]

theorem C7_witness :
    (("cargo-temp" ∈ buildFailRun.leftovers) ↔ build_cargo_docs buildFailWorld = false) ∧
    (("book-src" ∈ buildFailRun.leftovers) ↔ bookScratchLeft buildFailWorld = true) ∧
    "iced-repo-temp" ∉ buildFailRun.leftovers :=
  C7_scratch false ["iced"] buildFailWorld buildFailRun (by decide)

/-- C7 (counterexample): a completed run after which the `cargo-temp`
scratch directory still exists under the output root, refuting the claim
that every scratch directory is removed on every exit path. -/
theorem C7_counterexample :
    ∃ r, main false ["iced"] buildFailWorld = some r ∧
      "cargo-temp" ∈ r.leftovers :=
  ⟨buildFailRun, by decide, by decide⟩

/-- C8 (amended): the index artifact is produced last, and it mentions the
examples section iff the optional example stage was enabled — regardless
of whether that stage succeeded; it lists an API entry for exactly the
requested units, whatever the conversion outcomes were. -/
theorem C8_index_artifact (include_examples : Bool) (crates : List String) (w : World)
    (r : RunResult) (h : main include_examples crates w = some r) :
    r.events.getLast? = some (StageName.index, Outcome.Completed) ∧
    (IndexSection.examplesSection ∈ r.index ↔ include_examples = true) ∧
    (∀ c, IndexSection.apiEntry c ∈ r.index ↔ c ∈ crates) := by
  obtain ⟨exOk, -, -, hr⟩ := main_some_elim h
  subst hr
  refine ⟨?_, ?_, ?_⟩
  · unfold runEvents
    rw [List.getLast?_concat]
  · unfold create_index
    cases include_examples <;> simp
  · intro c
    unfold create_index
    cases include_examples <;> simp

theorem C8_witness :
    allOkRun.events.getLast? = some (StageName.index, Outcome.Completed) ∧
    (IndexSection.examplesSection ∈ allOkRun.index ↔ true = true) ∧
    (∀ c, IndexSection.apiEntry c ∈ allOkRun.index ↔ c ∈ (["iced"] : List String)) :=
  C8_index_artifact true ["iced"] allOkWorld allOkRun (by decide)

/-- A world in which the examples clone succeeds but the repository has no
`examples` directory, so the optional stage fails. -/
def noExamplesWorld : World :=
  { allOkWorld with examplesExist := false }

/-- The run `main true ["iced"] noExamplesWorld` produces. -/
def noExamplesRun : RunResult :=
  { exitCode := 1
    events := [(StageName.book, Outcome.Completed),
               (StageName.cargoBuild, Outcome.Completed),
               (StageName.convert "iced", Outcome.Completed),
               (StageName.examples, Outcome.Failed "examples-failed"),
               (StageName.index, Outcome.Completed)]
    index := [IndexSection.header, IndexSection.apiEntry "iced",
              IndexSection.examplesSection, IndexSection.footer]
    leftovers := [] }

/-- C8 (counterexample): a run whose optional example stage was enabled but
failed, yet the index artifact still mentions the examples section —
refuting "mentions examples iff enabled and succeeded". -/
theorem C8_counterexample :
    ∃ r, main true ["iced"] noExamplesWorld = some r ∧
      (StageName.examples, Outcome.Failed "examples-failed") ∈ r.events ∧
      IndexSection.examplesSection ∈ r.index :=
  ⟨noExamplesRun, by decide, by decide, by decide⟩

/-- C9 (amended): `main` fails to complete exactly when one of the
script's unguarded operations faults — the initial `output_dir.mkdir`;
`temp_dir.mkdir` at the start of `build_cargo_docs` (outside its `try`);
the `cargo-temp` cleanup `rmtree` after a successful build; a
non-`CalledProcessError` exception in `fetch_examples`'s copy/cleanup step
(with the stage enabled); or the index write.  Faults inside the `try`
blocks of the book, build and per-unit conversion stages are contained at
their stage boundary. -/
theorem C9_fault_propagation (include_examples : Bool) (crates : List String) (w : World) :
    main include_examples crates w = none ↔
      (w.outputMkdirFault = true ∨
        w.tempMkdirFault = true ∨
        (build_cargo_docs w = true ∧ w.tempRmtreeFault = true) ∨
        (include_examples = true ∧ fetch_examples w = none) ∨
        w.indexWriteFault = true) := by
  unfold main
  rcases hfe : fetch_examples w with _ | b <;>
    cases hom : w.outputMkdirFault <;> cases htm : w.tempMkdirFault <;>
    cases hb : build_cargo_docs w <;> cases htr : w.tempRmtreeFault <;>
    cases hidx : w.indexWriteFault <;> cases include_examples <;>
    simp [hfe, hom, htm, hb, htr, hidx]

/-- A world in which `shutil.copytree` raises inside `fetch_examples`. -/
def copyFaultWorld : World :=
  { allOkWorld with examplesCopyFault := true }

/-- C9 (counterexample): a run in which a fault inside the examples stage
(a `shutil` error, which only `CalledProcessError` handling misses)
propagates out of `main`, so the process does not complete with an exit
code — refuting "no internal fault of any stage propagates uncaught". -/
theorem C9_counterexample : main true ["iced"] copyFaultWorld = none := by
  decide

end IcedDocs
